import Mathlib

/-!
Verification of the command-dispatch and session-lifecycle core of the
tube-ai WhatsApp bot (main server module `src/commands/tempmail.js`, plus the
`promote` plugin in `src/promote.js`).

The JavaScript source is shallowly embedded: its string manipulation is
reimplemented over `List Char` (structural recursion, so every definition
evaluates inside the kernel), JavaScript truthiness of strings is modelled by
`jsOr` / `jsTruthy`, objects that may be `undefined` become `Option`, and the
side effects of a dispatch (outbound sends, store writes, plugin invocation)
are reified as a list of `Effect` values.  MongoDB is modelled as three
total maps keyed by phone number; timestamps and TTL fields are omitted
(no property below mentions them).
-/

namespace TubeAI

/-! ## JavaScript string primitives

Each helper mirrors one JavaScript string operation used by the source.
They are written by structural recursion on `List Char` so that closed
computations reduce by `decide` / `rfl`.
-/

/-- `s.slice(n)` (by character count; the source only slices ASCII here). -/
def jsSlice (s : String) (n : Nat) : String := (s.toList.drop n).asString

/-- `s.startsWith(p)`. -/
def jsStartsWith (s p : String) : Bool := p.toList.isPrefixOf s.toList

/-- `s.endsWith(p)`. -/
def jsEndsWith (s p : String) : Bool := p.toList.reverse.isPrefixOf s.toList.reverse

/-- `s.trim()`. -/
def jsTrim (s : String) : String :=
  (((s.toList.dropWhile Char.isWhitespace).reverse.dropWhile Char.isWhitespace).reverse).asString

/-- `s.toLowerCase()` (character-wise; the command names involved are ASCII). -/
def jsToLower (s : String) : String := (s.toList.map Char.toLower).asString

/-- `s.toUpperCase()` (character-wise). -/
def jsToUpper (s : String) : String := (s.toList.map Char.toUpper).asString

/-- `s.split(c)[0]` for a one-character separator: the text before the first
occurrence of `c` (the whole string when `c` does not occur). -/
def jsSplitHead (s : String) (c : Char) : String :=
  (s.toList.takeWhile (fun x => x != c)).asString

/-- Whether `sub` occurs inside `l` (the list-level core of `includes`). -/
def listIsInfix (sub : List Char) : List Char → Bool
  | [] => sub.isEmpty
  | c :: t => sub.isPrefixOf (c :: t) || listIsInfix sub t

/-- `s.includes(sub)`: substring containment (an empty `sub` is contained). -/
def jsIncludes (s sub : String) : Bool := listIsInfix sub.toList s.toList

/-- Remove the first occurrence of `pat` from `l` (core of `replace(pat, "")`). -/
def removeFirstOcc (pat : List Char) : List Char → List Char
  | [] => []
  | c :: t => if pat.isPrefixOf (c :: t) then (c :: t).drop pat.length
              else c :: removeFirstOcc pat t

/-- `s.replace(pat, "")`: JavaScript `replace` with a string pattern removes
only the first occurrence. -/
def jsReplaceFirst (s pat : String) : String := (removeFirstOcc pat.toList s.toList).asString

/-- Tokens of `l` separated by runs of spaces, with empty tokens dropped:
the effect of `.split(/ +/)` on an already-trimmed string (`acc` carries the
current token reversed). -/
def splitSpacesAux : List Char → List Char → List String
  | [], acc => if acc.isEmpty then [] else [acc.reverse.asString]
  | c :: t, acc =>
      if c = ' ' then
        if acc.isEmpty then splitSpacesAux t []
        else acc.reverse.asString :: splitSpacesAux t []
      else splitSpacesAux t (c :: acc)

/-- `s.split(/ +/)` on a trimmed string (for the empty string the source's
`[""]` and our `[]` agree after the `shift()`, which both turn into the empty
command name and no arguments). -/
def splitSpaces (s : String) : List String := splitSpacesAux s.toList []

/-- JavaScript `o || d` on a possibly-absent string: `undefined`, `null` and
`""` are falsy. -/
def jsOr (o : Option String) (d : String) : String :=
  match o with
  | some s => if s = "" then d else s
  | none => d

/-- JavaScript `s || d` on a present string: `""` is falsy. -/
def jsOrS (s d : String) : String := if s = "" then d else s

/-- JavaScript truthiness of a possibly-absent string. -/
def jsTruthy (o : Option String) : Bool :=
  match o with
  | some s => s != ""
  | none => false

/-! ## Message classifier (`getMessageType` / `getMessageText`)

`message.message` is modelled by `MessageContent`: the nine field names the
classifier tests explicitly become typed optional fields, and every further
key of the object (in enumeration order) is carried in `otherKeys`, which is
exactly what the classifier's `Object.keys` loop sees once the nine explicit
tests have failed. -/

structure ExtendedTextInfo where
  text : Option String
  mentionedJid : List String
deriving DecidableEq, Repr

structure ImageInfo where
  caption : Option String
deriving DecidableEq, Repr

structure VideoInfo where
  caption : Option String
deriving DecidableEq, Repr

structure DocumentInfo where
  fileName : Option String
deriving DecidableEq, Repr

structure MessageContent where
  conversation : Option String
  extendedTextMessage : Option ExtendedTextInfo
  imageMessage : Option ImageInfo
  videoMessage : Option VideoInfo
  audioMessage : Bool
  documentMessage : Option DocumentInfo
  stickerMessage : Bool
  contactMessage : Bool
  locationMessage : Bool
  otherKeys : List String
deriving DecidableEq, Repr

/-- `getMessageType` of tempmail.js (lines 760-779): the first truthy field
wins; `conversation` is a string, so an empty one is falsy and is skipped. -/
def getMessageType (c : MessageContent) : String :=
  if jsTruthy c.conversation then "TEXT"
  else if c.extendedTextMessage.isSome then "TEXT"
  else if c.imageMessage.isSome then "IMAGE"
  else if c.videoMessage.isSome then "VIDEO"
  else if c.audioMessage then "AUDIO"
  else if c.documentMessage.isSome then "DOCUMENT"
  else if c.stickerMessage then "STICKER"
  else if c.contactMessage then "CONTACT"
  else if c.locationMessage then "LOCATION"
  else
    match c.otherKeys.find? (fun k => jsEndsWith k "Message") with
    | some k => jsToUpper (jsReplaceFirst k "Message")
    | none => "UNKNOWN"

/-- `getMessageText` of tempmail.js (lines 782-804). The `||` fallbacks keep
JavaScript truthiness: an empty caption falls back to the placeholder. -/
def getMessageText (c : MessageContent) (messageType : String) : String :=
  match messageType with
  | "TEXT" => jsOr c.conversation (jsOr (c.extendedTextMessage.bind ExtendedTextInfo.text) "")
  | "IMAGE" => jsOr (c.imageMessage.bind ImageInfo.caption) "[Image]"
  | "VIDEO" => jsOr (c.videoMessage.bind VideoInfo.caption) "[Video]"
  | "AUDIO" => "[Audio]"
  | "DOCUMENT" => jsOr (c.documentMessage.bind DocumentInfo.fileName) "[Document]"
  | "STICKER" => "[Sticker]"
  | "CONTACT" => "[Contact]"
  | "LOCATION" => "[Location]"
  | t => "[" ++ t ++ "]"

/-- A `message.message` holding only an `imageMessage` with the given caption. -/
def imageOnlyContent (caption : Option String) : MessageContent :=
  { conversation := none, extendedTextMessage := none,
    imageMessage := some { caption := caption }, videoMessage := none,
    audioMessage := false, documentMessage := none, stickerMessage := false,
    contactMessage := false, locationMessage := false, otherKeys := [] }

/-! ## Command registry (`loadCommands`, lines 491-551)

A plugin module is a JavaScript value.  `loadCommands` first tests the
module's own `{pattern, execute}` shape (registering only the pattern, not
any alias); otherwise, when the module is an object, it walks the module's
property values and registers every descriptor-shaped value under its
pattern and then under each alias, when `alias` is an array.  A descriptor
is modelled by `CommandData`: `pattern` (with `""` standing for an absent or
falsy pattern), whether `execute` is present, the optional alias array, and
an opaque `payload` standing for the rest of the object (so two descriptors
with different payloads are different objects). -/

structure CommandData where
  pattern : String
  hasExecute : Bool
  aliasList : Option (List String)
  payload : Nat
deriving DecidableEq, Repr

/-- The `commandModule.pattern && commandModule.execute` test. -/
def validShape (d : CommandData) : Bool := (d.pattern != "") && d.hasExecute

/-- A loaded plugin module: an object with its own (possibly invalid)
top-level descriptor shape and its descriptor-shaped property values, or a
non-object export (skipped with a warning). -/
inductive JsModule where
  | objModule (top : CommandData) (entryValues : List CommandData)
  | nonObject
deriving DecidableEq, Repr

/-- The `commands.set` calls one property value of a multi-command module
contributes, in order: its pattern, then each alias (lines 524-536). -/
def entryWrites (d : CommandData) : List (String × CommandData) :=
  if validShape d then
    (d.pattern, d) :: (match d.aliasList with
      | some as => as.map (fun a => (a, d))
      | none => [])
  else []

/-- The `commands.set` calls one module contributes.  A module whose own
shape is valid registers exactly its pattern (lines 518-521) — its aliases
are never consulted; only the multi-command branch reads `alias`. -/
def moduleWrites : JsModule → List (String × CommandData)
  | .objModule top entryValues =>
      if validShape top then [(top.pattern, top)]
      else (entryValues.map entryWrites).flatten
  | .nonObject => []

/-- The write the runtime command appended at lines 547-550 contributes. -/
def runtimeWrites (runtimeCommand : CommandData) : List (String × CommandData) :=
  if validShape runtimeCommand then [(runtimeCommand.pattern, runtimeCommand)] else []

/-- All `commands.set` calls of one `loadCommands()` run, in order. -/
def loadWrites (modules : List JsModule) (runtimeCommand : CommandData) :
    List (String × CommandData) :=
  (modules.map moduleWrites).flatten ++ runtimeWrites runtimeCommand

/-- One `Map.set` on the registry. -/
def registrySet (reg : String → Option CommandData) (k : String) (v : CommandData) :
    String → Option CommandData :=
  fun x => if x = k then some v else reg x

/-- Apply a list of `Map.set` calls in order. -/
def applyWrites (reg : String → Option CommandData)
    (ws : List (String × CommandData)) : String → Option CommandData :=
  ws.foldl (fun r w => registrySet r w.1 w.2) reg

/-- `loadCommands()`: `commands.clear()` then every `commands.set`, ending
with the runtime command.  `loadCommands modules rt k` is `commands.get(k)`
after the load. -/
def loadCommands (modules : List JsModule) (runtimeCommand : CommandData) :
    String → Option CommandData :=
  applyWrites (fun _ => none) (loadWrites modules runtimeCommand)

/-- The value of the last write whose key is `k`, when there is one. -/
def lastWriteVal : List (String × CommandData) → String → Option CommandData
  | [], _ => none
  | w :: t, k =>
      match lastWriteVal t k with
      | some d => some d
      | none => if w.1 = k then some w.2 else none

theorem applyWrites_of_lastWrite_none (ws : List (String × CommandData))
    (reg : String → Option CommandData) (k : String)
    (h : lastWriteVal ws k = none) : applyWrites reg ws k = reg k := by
  induction ws generalizing reg with
  | nil => rfl
  | cons w t ih =>
    simp only [lastWriteVal] at h
    rcases hw : lastWriteVal t k with _ | d
    · rw [hw] at h
      simp only [applyWrites, List.foldl_cons]
      have hk : ¬ w.1 = k := by
        intro hkk
        rw [if_pos hkk] at h
        exact Option.noConfusion h
      have := ih (registrySet reg w.1 w.2) hw
      simp only [applyWrites] at this
      rw [this]
      show (if k = w.1 then some w.2 else reg k) = reg k
      exact if_neg (fun hkk => hk hkk.symm)
    · rw [hw] at h
      exact absurd h (by simp)

theorem applyWrites_of_lastWrite_some (ws : List (String × CommandData))
    (reg : String → Option CommandData) (k : String) (d : CommandData)
    (h : lastWriteVal ws k = some d) : applyWrites reg ws k = some d := by
  induction ws generalizing reg with
  | nil => exact absurd h (by simp [lastWriteVal])
  | cons w t ih =>
    simp only [lastWriteVal] at h
    rcases hw : lastWriteVal t k with _ | d'
    · rw [hw] at h
      by_cases hk : w.1 = k
      · rw [if_pos hk] at h
        simp only [applyWrites, List.foldl_cons]
        have := applyWrites_of_lastWrite_none t (registrySet reg w.1 w.2) k hw
        simp only [applyWrites] at this
        rw [this, registrySet, if_pos hk.symm]
        exact h
      · rw [if_neg hk] at h
        exact Option.noConfusion h
    · rw [hw] at h
      simp only [applyWrites, List.foldl_cons]
      have := ih (registrySet reg w.1 w.2) (hw.trans h)
      simpa [applyWrites] using this

/-! ## MongoDB store model

`Session`, `PairingCode` and `UserSettings` documents keyed by phone number.
Credentials and auth state are opaque blobs (`Option Nat`, `none` = `null`);
timestamps and TTL are omitted. -/

structure StoredUserSettings where
  pfx : String
  autoStatusSeen : Bool
  autoStatusReact : Bool
  autoStatusReply : Bool
deriving DecidableEq, Repr

structure SessionRecord where
  sessionId : Option String
  creds : Option Nat
  authStateB : Option Nat
  settingsBlob : Nat
  isActive : Bool
deriving DecidableEq, Repr

structure SessionData where
  creds : Option Nat
  authStateB : Option Nat
  settingsBlob : Nat
deriving DecidableEq, Repr

structure MongoStore where
  sessions : String → Option SessionRecord
  pairingCodes : String → Option String
  userSettingsTable : String → Option StoredUserSettings

/-- `saveSessionToMongo` (lines 237-270): a `findOneAndUpdate` upsert whose
`$set` writes `sessionId`, `creds`, `authState`, `settings` from the caller's
data and hard-codes `isActive: true` — the function itself never reads an
`isActive` from its argument. -/
def saveSessionToMongo (number : String) (sessionData : SessionData)
    (store : MongoStore) : MongoStore :=
  let updated : SessionRecord :=
    { sessionId := some number, creds := sessionData.creds,
      authStateB := sessionData.authStateB,
      settingsBlob := sessionData.settingsBlob, isActive := true }
  { store with sessions := fun n =>
      if n = number then some updated else store.sessions n }

/-- `deleteSessionFromMongo` (lines 297-310): deletes the Session *and* the
UserSettings document for the number. -/
def deleteSessionFromMongo (number : String) (store : MongoStore) : MongoStore :=
  { store with
      sessions := fun n => if n = number then none else store.sessions n,
      userSettingsTable := fun n => if n = number then none else store.userSettingsTable n }

/-- `deletePairingCodeFromMongo` (lines 354-366). -/
def deletePairingCodeFromMongo (number : String) (store : MongoStore) : MongoStore :=
  { store with pairingCodes := fun n => if n = number then none else store.pairingCodes n }

/-! ## Connection lifecycle (`setupConnectionHandlers`, lines 1227-1479)

One handler closure per socket: `hasShownConnectedMessage`, `isLoggedOut`
and `reconnectAttempts` live in the closure created by each call of
`setupConnectionHandlers`. -/

def MAX_RECONNECT_ATTEMPTS : Nat := 3

/-- Baileys `DisconnectReason.loggedOut`. -/
def DisconnectReasonLoggedOut : Nat := 401

structure HandlerState where
  hasShownConnectedMessage : Bool
  isLoggedOut : Bool
  reconnectAttempts : Nat
deriving DecidableEq, Repr

/-- The closure state `setupConnectionHandlers` starts with (lines 1228-1230). -/
def initialHandlerState : HandlerState :=
  { hasShownConnectedMessage := false, isLoggedOut := false, reconnectAttempts := 0 }

/-- What the `connection === "close"` branch decides (lines 1316-1362). -/
inductive CloseAction where
  | scheduleReconnect (attemptNumber : Nat) (delayMs : Nat)
  | terminal (loggedOut : Bool)
deriving DecidableEq, Repr

/-- The close branch: reconnect when the reason is not `loggedOut` and the
attempt counter is below the cap, incrementing the counter first and
scheduling the retry after `reconnectAttempts * 5000` ms; otherwise a final
disconnect. -/
def connectionClose (s : HandlerState) (statusCode : Option Nat) :
    HandlerState × CloseAction :=
  let shouldReconnect := statusCode != some DisconnectReasonLoggedOut
  if shouldReconnect ∧ s.reconnectAttempts < MAX_RECONNECT_ATTEMPTS then
    ({ s with reconnectAttempts := s.reconnectAttempts + 1,
              hasShownConnectedMessage := false },
     .scheduleReconnect (s.reconnectAttempts + 1) ((s.reconnectAttempts + 1) * 5000))
  else
    ({ s with isLoggedOut := true },
     .terminal (statusCode == some DisconnectReasonLoggedOut))

inductive ConnEvent where
  | qrReceived
  | connOpen
  | connClose (statusCode : Option Nat)
  | connConnecting
deriving DecidableEq, Repr

/-- The `connection.update` listener's effect on the closure state (lines
1234-1369): a QR resets the shown flag, `open` clears the logout flag and
the attempt counter, `close` runs `connectionClose`, `connecting` resets the
shown flag. -/
def handlerStep (s : HandlerState) : ConnEvent → HandlerState × Option CloseAction
  | .qrReceived => ({ s with hasShownConnectedMessage := false }, none)
  | .connOpen => ({ s with isLoggedOut := false, reconnectAttempts := 0,
                           hasShownConnectedMessage := true }, none)
  | .connClose code =>
      let r := connectionClose s code
      (r.1, some r.2)
  | .connConnecting => ({ s with hasShownConnectedMessage := false }, none)

/-- The closure state after a sequence of `connection.update` events on one
socket. -/
def runHandler (s : HandlerState) (events : List ConnEvent) : HandlerState :=
  events.foldl (fun st e => (handlerStep st e).1) s

/-- The store mutation the `close` branch performs (lines 1342-1358): on a
`loggedOut` terminal close the Session, then the PairingCode are deleted; on
any other terminal close `saveSessionToMongo` is called with `creds: null`,
`authState: null`, `settings: {}` (and an `isActive: false` field the
function ignores); a scheduled reconnect leaves the store alone. -/
def handleCloseStore (sessionId : String) (s : HandlerState)
    (statusCode : Option Nat) (store : MongoStore) : MongoStore :=
  match (connectionClose s statusCode).2 with
  | .scheduleReconnect _ _ => store
  | .terminal true =>
      deletePairingCodeFromMongo sessionId (deleteSessionFromMongo sessionId store)
  | .terminal false =>
      saveSessionToMongo sessionId
        { creds := none, authStateB := none, settingsBlob := 0 } store

/-! Session-level view: an executed reconnect (the `setTimeout` of line 1329
firing while the session is still in `activeConnections`) runs
`initializeConnection`, which loads the stored credentials, builds a fresh
socket and calls `setupConnectionHandlers` again (lines 1482-1542) — so the
replacement handler starts from `initialHandlerState`, its attempt counter
at 0.  A terminal close removes the session from `activeConnections`
(line 1360). -/

structure SessionMachine where
  handler : HandlerState
  inActiveConnections : Bool
  storedCreds : Bool
deriving DecidableEq, Repr

inductive SessionEvent where
  | transport (e : ConnEvent)
  | reconnectTimerFires
deriving DecidableEq, Repr

def sessionStep (s : SessionMachine) : SessionEvent → SessionMachine × Option CloseAction
  | .transport (.connClose code) =>
      let r := connectionClose s.handler code
      match r.2 with
      | .scheduleReconnect n d =>
          ({ s with handler := r.1 }, some (.scheduleReconnect n d))
      | .terminal lo =>
          ({ s with handler := r.1, inActiveConnections := false }, some (.terminal lo))
  | .transport e => ({ s with handler := (handlerStep s.handler e).1 }, none)
  | .reconnectTimerFires =>
      if s.inActiveConnections ∧ s.storedCreds then
        ({ s with handler := initialHandlerState }, none)
      else (s, none)

/-- Run a session-level trace, collecting every close decision in order. -/
def runSession (s : SessionMachine) : List SessionEvent → SessionMachine × List CloseAction
  | [] => (s, [])
  | e :: rest =>
      let r := sessionStep s e
      let r' := runSession r.1 rest
      (r'.1, r.2.toList ++ r'.2)

/-! ## Active-socket counter (`activeSockets`)

Every mutation of the module-level `activeSockets` variable: the `open`
branch increments (line 1252), the terminal close branch assigns
`Math.max(0, activeSockets - 1)` (line 1339), and each session reloaded at
startup increments (line 1651); nothing else touches it. -/

inductive CounterEvent where
  | connectionOpen
  | terminalClose
  | sessionReloaded
  | otherTransition
deriving DecidableEq, Repr

def activeSocketsStep (n : Int) : CounterEvent → Int
  | .connectionOpen => n + 1
  | .terminalClose => max 0 (n - 1)
  | .sessionReloaded => n + 1
  | .otherTransition => n

/-! ## Message dispatch (`handleMessage`, `handleBuiltInCommands`)

The transport connection is modelled by `Conn`: the authenticated account id
(`conn.user.id`), whether the socket object has a `newsletterSend` method,
and the group-metadata fetch, where `none` models `conn.groupMetadata`
throwing (the dispatcher catches the error and leaves its local
`groupMetadata` at `null`).

All outbound traffic and store writes of one dispatch are reified as an
ordered `List Effect`; outbound messages are the `Effect.send` entries, and
each carries a `SendKind` naming which `sendMessage`/`newsletterSend` call
site in the source produced it.  (The `conn.ev.on('group-participants.update',…)`
listener registration of line 945 and console logging are not effects of
this model: neither sends a message nor touches the store.) -/

structure MessageKey where
  remoteJid : String
  fromMe : Bool
  participant : Option String
deriving DecidableEq, Repr

structure InboundMessage where
  key : MessageKey
  content : Option MessageContent
deriving DecidableEq, Repr

structure GroupParticipant where
  id : String
  admin : Option String
deriving DecidableEq, Repr

structure GroupMetadata where
  participants : List GroupParticipant
deriving DecidableEq, Repr

structure Conn where
  userId : String
  hasNewsletterSend : Bool
  groupMetadataOf : String → Option GroupMetadata

/-- The context object dispatch hands to a plugin's `execute`
(lines 951-961). -/
structure CommandContext where
  args : List String
  q : String
  fromJid : String
  isGroup : Bool
  groupMetadata : Option GroupMetadata
  sender : String
  isAdmins : Bool
  isCreator : Bool
deriving DecidableEq, Repr

/-- Which call site of the source produced an outbound message. -/
inductive SendKind where
  | statusReact
  | statusReply
  | newsletterPing
  | newsletterMenu
  | newsletterAck (commandName : String)
  | pingHeader
  | pingReact
  | pingDetails
  | ownerOnly
  | pfxUpdated (newPfx : String)
  | currentPfx (pfx : String)
  | menuText
  | groupsOnly
  | groupInfoFailed
  | adminsOnly
  | mentionNeeded
  | reactOk
  | promoted (target : String)
deriving DecidableEq, Repr

inductive Effect where
  | send (jid : String) (kind : SendKind)
  | readStatus
  | storeStatusMedia (participant : String)
  | writeUserSettingsPfx (number : String) (newPfx : String)
  | execCommand (commandName : String) (ctx : CommandContext)
  | groupParticipantsUpdate (jid : String) (targets : List String) (action : String)
deriving DecidableEq, Repr

/-- The process-wide default command prefix, `process.env.PREFIX || "."`
with the environment unset (line 467). -/
def defaultPfx : String := "."

/-- `handleBuiltInCommands` (lines 977-1148).  `some effects` models a
`return true` (handled), `none` a `return false`.  The per-user settings the
source re-loads from MongoDB at line 979 are passed in resolved form (the
store does not change between the two loads of one dispatch).

In a `@newsletter` chat only `ping`, `menu`, `help` and `nyoni` have their
own cases, and *every other* command name is acknowledged with a
"Command received" message when the socket has `newsletterSend` (lines
1028-1037), the branch returning `true` either way.  In other chats the
built-ins are `ping`/`speed`, `prefix` (owner-gated by
`messageSenderJid !== ownerJid && !messageSenderJid.includes(ownerJid.split(':')[0])`)
and `menu`/`help`/`nyoni`. -/
def handleBuiltInCommands (conn : Conn) (settings : StoredUserSettings)
    (msg : InboundMessage) (commandName : String) (args : List String)
    (sessionId : String) : Option (List Effect) :=
  let userPfx := jsOrS settings.pfx defaultPfx
  let fromJid := msg.key.remoteJid
  if jsEndsWith fromJid "@newsletter" then
    if commandName = "ping" then
      some [Effect.send fromJid SendKind.newsletterPing]
    else if commandName = "menu" ∨ commandName = "help" ∨ commandName = "nyoni" then
      some [Effect.send fromJid SendKind.newsletterMenu]
    else
      some (if conn.hasNewsletterSend then
              [Effect.send fromJid (SendKind.newsletterAck commandName)]
            else [])
  else
    if commandName = "ping" ∨ commandName = "speed" then
      some [Effect.send fromJid SendKind.pingHeader,
            Effect.send fromJid SendKind.pingReact,
            Effect.send fromJid SendKind.pingDetails]
    else if commandName = "prefix" then
      let ownerJid := conn.userId
      let messageSenderJid := jsOr msg.key.participant fromJid
      if messageSenderJid ≠ ownerJid ∧
          ¬ jsIncludes messageSenderJid (jsSplitHead ownerJid ':') then
        some [Effect.send fromJid SendKind.ownerOnly]
      else if args.length > 0 then
        let newPfx := args.headD ""
        some [Effect.writeUserSettingsPfx sessionId newPfx,
              Effect.send fromJid (SendKind.pfxUpdated newPfx)]
      else
        some [Effect.send fromJid (SendKind.currentPfx userPfx)]
    else if commandName = "menu" ∨ commandName = "help" ∨ commandName = "nyoni" then
      some [Effect.send fromJid SendKind.menuText]
    else
      none

/-- The command-parsing part of `handleMessage` (lines 873-969), reached
when the message is not a status broadcast and carries a payload: the body
is classified, the per-user prefix resolved (`userSettings.prefix || PREFIX`),
the command name and arguments split off (`split(/ +/)` after a trim, first
token lower-cased), built-ins tried first, and only then the registry
(`commands.has`); an unknown name is only logged and produces no effect.
A registered command gets a context with group metadata fetched only for
group chats, a fetch failure (`conn.groupMetadataOf _ = none`) leaving
`groupMetadata` at `null` and the admin flags at `false`, and `execute` is
invoked exactly once. -/
def dispatchCommand (conn : Conn) (settings : StoredUserSettings)
    (commandsMap : String → Option CommandData) (msg : InboundMessage)
    (content : MessageContent) (sessionId : String) : List Effect :=
  let messageType := getMessageType content
  let body := getMessageText content messageType
  let userPfx := jsOrS settings.pfx defaultPfx
  if jsStartsWith body userPfx then
    let parts := splitSpaces (jsTrim (jsSlice body userPfx.length))
    let commandName := jsToLower (parts.headD "")
    let args := parts.drop 1
    match handleBuiltInCommands conn settings msg commandName args sessionId with
    | some effects => effects
    | none =>
      if (commandsMap commandName).isSome then
        let fromJid := msg.key.remoteJid
        let isGroup := jsEndsWith fromJid "@g.us"
        let groupMetadata := if isGroup then conn.groupMetadataOf fromJid else none
        let sender := jsOr msg.key.participant fromJid
        let flags :=
          if isGroup then
            match groupMetadata with
            | some md =>
              let pOpt := md.participants.find? (fun p => p.id == sender)
              ((pOpt.map (fun p =>
                  p.admin == some "admin" || p.admin == some "superadmin")).getD false,
               (pOpt.map (fun p => p.admin == some "superadmin")).getD false)
            | none => (false, false)
          else (false, false)
        let q := jsTrim (jsSlice body (userPfx.length + commandName.length))
        [Effect.execCommand commandName
          { args := args, q := q, fromJid := fromJid, isGroup := isGroup,
            groupMetadata := groupMetadata, sender := sender,
            isAdmins := flags.1, isCreator := flags.2 }]
      else []
  else []

/-- `handleMessage` (lines 828-974).  A `status@broadcast` message is
diverted to the auto-status path (its random emoji choice is collapsed into
the single `statusReact` kind) and never reaches command parsing; a message
with no payload is a no-op; everything else goes to `dispatchCommand`. -/
def handleMessage (conn : Conn) (settings : StoredUserSettings)
    (commandsMap : String → Option CommandData) (msg : InboundMessage)
    (sessionId : String) : List Effect :=
  if msg.key.remoteJid = "status@broadcast" then
    (if settings.autoStatusSeen then [Effect.readStatus] else []) ++
    (if settings.autoStatusReact then
        [Effect.send msg.key.remoteJid SendKind.statusReact] else []) ++
    (if settings.autoStatusReply then
        [Effect.send (jsOr msg.key.participant "") SendKind.statusReply] else []) ++
    (match msg.content with
     | some c =>
        if c.imageMessage.isSome ∨ c.videoMessage.isSome then
          [Effect.storeStatusMedia (jsOr msg.key.participant "")]
        else []
     | none => [])
  else
    match msg.content with
    | none => []
    | some content => dispatchCommand conn settings commandsMap msg content sessionId

/-! ## The `promote` plugin (`src/promote.js`)

`execute` receives the connection, the `m` shape built by the dispatcher
(`mentionedJid`, `quoted`), and the context fields it destructures.  The
owner test here is `conn.user.id.split(":")[0] === sender.split("@")[0]`. -/

structure MExtra where
  mentionedJid : List String
  quotedSender : Option String
deriving DecidableEq, Repr

def promoteExecute (conn : Conn) (m : MExtra) (fromJid : String)
    (isGroup : Bool) (sender : String) : List Effect :=
  if ¬ isGroup then [Effect.send fromJid SendKind.groupsOnly]
  else
    match conn.groupMetadataOf fromJid with
    | none => [Effect.send fromJid SendKind.groupInfoFailed]
    | some metadata =>
      let pOpt := metadata.participants.find? (fun p => p.id == sender)
      let isAdmin := (pOpt.map (fun p =>
          p.admin == some "admin" || p.admin == some "superadmin")).getD false
      let isOwner := jsSplitHead conn.userId ':' == jsSplitHead sender '@'
      if ¬ isAdmin ∧ ¬ isOwner then [Effect.send fromJid SendKind.adminsOnly]
      else
        let target : Option String :=
          if m.mentionedJid.length > 0 then m.mentionedJid.head? else m.quotedSender
        match target with
        | none => [Effect.send fromJid SendKind.mentionNeeded]
        | some t =>
          [Effect.send fromJid SendKind.reactOk,
           Effect.groupParticipantsUpdate fromJid [t] "promote",
           Effect.send fromJid (SendKind.promoted t)]

/-- A `message.message` holding only a `conversation` body (a plain text
message). -/
def textContent (s : String) : MessageContent :=
  { conversation := some s, extendedTextMessage := none, imageMessage := none,
    videoMessage := none, audioMessage := false, documentMessage := none,
    stickerMessage := false, contactMessage := false, locationMessage := false,
    otherKeys := [] }

/-- A concrete stored-settings document with the schema's defaults (prefix
".", all auto-status toggles on), used as input to the concrete theorems. -/
def demoSettings : StoredUserSettings :=
  { pfx := ".", autoStatusSeen := true, autoStatusReact := true, autoStatusReply := true }


/-! ## Claim C7 — message classification -/

/-- Claim C7: extracted text follows the classified type — a `TEXT` message
yields its literal body, media types yield the caption (when present and
non-empty) or their fixed placeholder label, and `UNKNOWN` yields the
bracketed type tag; in particular a payload holding only an `imageMessage`
with caption "hi" classifies as `IMAGE` with text "hi", and with an empty
(or absent) caption the text is "[Image]". -/
theorem C7_message_classification :
    (getMessageType (imageOnlyContent (some "hi")) = "IMAGE" ∧
     getMessageText (imageOnlyContent (some "hi")) "IMAGE" = "hi") ∧
    (getMessageText (imageOnlyContent (some "")) "IMAGE" = "[Image]" ∧
     getMessageText (imageOnlyContent none) "IMAGE" = "[Image]") ∧
    (∀ (c : MessageContent) (s : String), c.conversation = some s → s ≠ "" →
        getMessageType c = "TEXT" ∧ getMessageText c "TEXT" = s) ∧
    (∀ (c : MessageContent) (cap : String),
        c.imageMessage = some { caption := some cap } → cap ≠ "" →
        getMessageText c "IMAGE" = cap) ∧
    (∀ c : MessageContent,
        getMessageText c "AUDIO" = "[Audio]" ∧
        getMessageText c "STICKER" = "[Sticker]" ∧
        getMessageText c "CONTACT" = "[Contact]" ∧
        getMessageText c "LOCATION" = "[Location]") ∧
    (∀ c : MessageContent, getMessageText c "UNKNOWN" = "[UNKNOWN]") := by
  refine ⟨⟨by decide, by decide⟩, ⟨by decide, by decide⟩, ?_, ?_, ?_, ?_⟩
  · intro c s hc hs
    constructor
    · show (if jsTruthy c.conversation then "TEXT" else _) = "TEXT"
      rw [hc]
      simp [jsTruthy, hs]
    · show jsOr c.conversation (jsOr (c.extendedTextMessage.bind ExtendedTextInfo.text) "") = s
      rw [hc]
      simp [jsOr, hs]
  · intro c cap hc hcap
    show jsOr (c.imageMessage.bind ImageInfo.caption) "[Image]" = cap
    rw [hc]
    simp [jsOr, Option.bind, hcap]
  · intro c
    exact ⟨rfl, rfl, rfl, rfl⟩
  · intro c
    rfl

/-- Claim C7 witness: the text-of-TEXT clause of `C7_message_classification`
applied at a concrete conversation body. -/
theorem C7_message_classification_witness :
    getMessageType (textContent ".ping") = "TEXT" ∧
    getMessageText (textContent ".ping") "TEXT" = ".ping" :=
  C7_message_classification.2.2.1 (textContent ".ping") ".ping" rfl (by decide)

/-! ## Claim C4 — registry registration -/

def c4SingleModule : JsModule :=
  .objModule { pattern := "p", hasExecute := true, aliasList := some ["a"], payload := 7 } []

def c4Runtime : CommandData :=
  { pattern := "runtime", hasExecute := true, aliasList := none, payload := 99 }

/-- Counterexample to claim C4 as stated: a module whose own shape is a
valid `{pattern, execute}` descriptor and which declares the alias "a" is
registered under its pattern, but lookup by the alias returns nothing —
the single-descriptor branch of `loadCommands` never reads `alias`. -/
theorem C4_counterexample :
    loadCommands [c4SingleModule] c4Runtime "p" =
      some { pattern := "p", hasExecute := true, aliasList := some ["a"], payload := 7 } ∧
    loadCommands [c4SingleModule] c4Runtime "a" = none := by
  decide

def c4MultiEntry : CommandData :=
  { pattern := "kick", hasExecute := true, aliasList := some ["remove", "ban"], payload := 3 }

def c4MultiModule : JsModule :=
  .objModule { pattern := "", hasExecute := false, aliasList := none, payload := 0 }
    [c4MultiEntry]

/-- Claim C4 (amended): after `loadCommands()` completes, lookup of a name
returns the descriptor of the last registration of that name, where a
module with a valid top-level `{pattern, execute}` shape registers only its
pattern (its aliases are ignored), and a multi-descriptor module registers
each valid entry under its pattern and under every declared alias, all
mapping to the same descriptor object. -/
theorem C4_registry_lookup :
    (∀ (modules : List JsModule) (runtimeCommand : CommandData) (k : String) (d : CommandData),
        lastWriteVal (loadWrites modules runtimeCommand) k = some d →
        loadCommands modules runtimeCommand k = some d) ∧
    (∀ (top : CommandData) (entryValues : List CommandData), validShape top = true →
        moduleWrites (.objModule top entryValues) = [(top.pattern, top)]) ∧
    (∀ (top : CommandData) (entryValues : List CommandData) (e : CommandData),
        validShape top = false → e ∈ entryValues → validShape e = true →
        (e.pattern, e) ∈ moduleWrites (.objModule top entryValues) ∧
        ∀ (a : String) (as : List String), e.aliasList = some as → a ∈ as →
          (a, e) ∈ moduleWrites (.objModule top entryValues)) := by
  refine ⟨?_, ?_, ?_⟩
  · intro modules runtimeCommand k d h
    exact applyWrites_of_lastWrite_some _ _ _ _ h
  · intro top entryValues htop
    simp [moduleWrites, htop]
  · intro top entryValues e htop he hval
    have hmem : entryWrites e ∈ entryValues.map entryWrites := List.mem_map_of_mem _ he
    constructor
    · simp only [moduleWrites, htop, Bool.false_eq_true, if_false]
      exact List.mem_flatten.mpr ⟨entryWrites e, hmem, by simp [entryWrites, hval]⟩
    · intro a as ha hmem'
      simp only [moduleWrites, htop, Bool.false_eq_true, if_false]
      refine List.mem_flatten.mpr ⟨entryWrites e, hmem, ?_⟩
      simp only [entryWrites, hval, if_pos, ha]
      exact List.mem_cons_of_mem _ (List.mem_map_of_mem _ hmem')

/-- Claim C4 witness: `C4_registry_lookup` applied at a concrete
multi-descriptor module — lookup by the alias "remove" returns the same
descriptor registered under the pattern "kick". -/
theorem C4_registry_lookup_witness :
    loadCommands [c4MultiModule] c4Runtime "remove" = some c4MultiEntry ∧
    loadCommands [c4MultiModule] c4Runtime "kick" = some c4MultiEntry :=
  ⟨C4_registry_lookup.1 [c4MultiModule] c4Runtime "remove" c4MultiEntry (by decide),
   C4_registry_lookup.1 [c4MultiModule] c4Runtime "kick" c4MultiEntry (by decide)⟩

/-! ## Claim C5 — unknown commands -/

/-- The command name `dispatchCommand` parses out of a body: first
whitespace-separated token after the per-user prefix, lower-cased. -/
def parsedCommandName (settings : StoredUserSettings) (body : String) : String :=
  jsToLower ((splitSpaces (jsTrim (jsSlice body (jsOrS settings.pfx defaultPfx).length))).headD "")

/-- The positional arguments `dispatchCommand` parses out of a body. -/
def parsedArgs (settings : StoredUserSettings) (body : String) : List String :=
  (splitSpaces (jsTrim (jsSlice body (jsOrS settings.pfx defaultPfx).length))).drop 1

/-- The six built-in command names of the regular-chat switch. -/
def builtInNames : List String := ["ping", "speed", "prefix", "menu", "help", "nyoni"]

theorem handleBuiltInCommands_not_builtin (conn : Conn) (settings : StoredUserSettings)
    (msg : InboundMessage) (commandName : String) (args : List String) (sessionId : String)
    (hnl : jsEndsWith msg.key.remoteJid "@newsletter" = false)
    (h : commandName ∉ builtInNames) :
    handleBuiltInCommands conn settings msg commandName args sessionId = none := by
  simp only [builtInNames, List.mem_cons, List.not_mem_nil, or_false, not_or] at h
  obtain ⟨h1, h2, h3, h4, h5, h6⟩ := h
  unfold handleBuiltInCommands
  simp [hnl, h1, h2, h3, h4, h5, h6]

theorem handleMessage_eq_dispatch (conn : Conn) (settings : StoredUserSettings)
    (commandsMap : String → Option CommandData) (msg : InboundMessage)
    (content : MessageContent) (sessionId : String)
    (hstatus : msg.key.remoteJid ≠ "status@broadcast")
    (hc : msg.content = some content) :
    handleMessage conn settings commandsMap msg sessionId =
      dispatchCommand conn settings commandsMap msg content sessionId := by
  unfold handleMessage
  rw [if_neg hstatus, hc]

/-- Claim C5 (amended): an inbound message that is not a status broadcast
and not from a `@newsletter` chat, whose body starts with the effective
prefix but whose parsed command name is neither a built-in nor in the
registry, produces no effects at all — in particular zero outbound
messages.  (In a `@newsletter` chat the same input is acknowledged instead,
see `C5_counterexample`.) -/
theorem C5_unknown_command_silent (conn : Conn) (settings : StoredUserSettings)
    (commandsMap : String → Option CommandData) (msg : InboundMessage)
    (content : MessageContent) (sessionId : String)
    (hstatus : msg.key.remoteJid ≠ "status@broadcast")
    (hnl : jsEndsWith msg.key.remoteJid "@newsletter" = false)
    (hc : msg.content = some content)
    (hbuiltin :
      parsedCommandName settings (getMessageText content (getMessageType content)) ∉ builtInNames)
    (hreg :
      commandsMap (parsedCommandName settings (getMessageText content (getMessageType content)))
        = none) :
    handleMessage conn settings commandsMap msg sessionId = [] := by
  rw [handleMessage_eq_dispatch conn settings commandsMap msg content sessionId hstatus hc]
  have hb := handleBuiltInCommands_not_builtin conn settings msg
      (parsedCommandName settings (getMessageText content (getMessageType content)))
      (parsedArgs settings (getMessageText content (getMessageType content)))
      sessionId hnl hbuiltin
  simp only [parsedCommandName, parsedArgs] at hb hreg
  unfold dispatchCommand
  dsimp only []
  split
  · rw [hb]
    simp only [List.headD_eq_head?_getD] at hreg
    simp [hreg]
  · rfl

def c5Conn : Conn :=
  { userId := "999:1@s.whatsapp.net", hasNewsletterSend := true,
    groupMetadataOf := fun _ => none }

def c5NewsletterMsg : InboundMessage :=
  { key := { remoteJid := "120363399470975987@newsletter", fromMe := false,
             participant := none },
    content := some (textContent ".unknowncmd args") }

/-- Counterexample to claim C5 as stated: in a `@newsletter` chat a prefixed
message whose command name matches no built-in and no registered plugin is
*not* dropped silently — the newsletter branch of `handleBuiltInCommands`
acknowledges every such command with a "Command received" send when the
socket has `newsletterSend`. -/
theorem C5_counterexample :
    handleMessage c5Conn demoSettings (fun _ => none) c5NewsletterMsg "15551234567" =
      [Effect.send "120363399470975987@newsletter" (SendKind.newsletterAck "unknowncmd")] := by
  decide

def c5PrivateMsg : InboundMessage :=
  { key := { remoteJid := "447700900000@s.whatsapp.net", fromMe := false,
             participant := none },
    content := some (textContent ".unknowncmd args") }

/-- Claim C5 witness: `C5_unknown_command_silent` applied to a concrete
private-chat message `.unknowncmd args` against an empty registry. -/
theorem C5_unknown_command_silent_witness :
    handleMessage c5Conn demoSettings (fun _ => none) c5PrivateMsg "15551234567" = [] :=
  C5_unknown_command_silent c5Conn demoSettings (fun _ => none) c5PrivateMsg
    (textContent ".unknowncmd args") "15551234567"
    (by decide) (by decide) rfl (by decide) rfl

/-! ## Claim C8 — group-metadata fetch failure is non-fatal -/

/-- Claim C8: when dispatching a group message whose command is registered,
a failing group-metadata fetch (`conn.groupMetadataOf _ = none`, the thrown
error being caught and logged) does not abort dispatch — the invocation
context is still built and the plugin is still invoked, exactly once, with
`isAdmins` and `isCreator` both `false` and `groupMetadata` `null`. -/
theorem C8_metadata_failure_nonfatal (conn : Conn) (settings : StoredUserSettings)
    (commandsMap : String → Option CommandData) (msg : InboundMessage)
    (content : MessageContent) (sessionId : String) (d : CommandData)
    (hstatus : msg.key.remoteJid ≠ "status@broadcast")
    (hgroup : jsEndsWith msg.key.remoteJid "@g.us" = true)
    (hnl : jsEndsWith msg.key.remoteJid "@newsletter" = false)
    (hc : msg.content = some content)
    (hpfx : jsStartsWith (getMessageText content (getMessageType content))
        (jsOrS settings.pfx defaultPfx) = true)
    (hbuiltin :
      parsedCommandName settings (getMessageText content (getMessageType content)) ∉ builtInNames)
    (hreg :
      commandsMap (parsedCommandName settings (getMessageText content (getMessageType content)))
        = some d)
    (hmeta : conn.groupMetadataOf msg.key.remoteJid = none) :
    handleMessage conn settings commandsMap msg sessionId =
      [Effect.execCommand
        (parsedCommandName settings (getMessageText content (getMessageType content)))
        { args := parsedArgs settings (getMessageText content (getMessageType content)),
          q := jsTrim (jsSlice (getMessageText content (getMessageType content))
            ((jsOrS settings.pfx defaultPfx).length +
             (parsedCommandName settings
               (getMessageText content (getMessageType content))).length)),
          fromJid := msg.key.remoteJid, isGroup := true, groupMetadata := none,
          sender := jsOr msg.key.participant msg.key.remoteJid,
          isAdmins := false, isCreator := false }] := by
  rw [handleMessage_eq_dispatch conn settings commandsMap msg content sessionId hstatus hc]
  have hb := handleBuiltInCommands_not_builtin conn settings msg
      (parsedCommandName settings (getMessageText content (getMessageType content)))
      (parsedArgs settings (getMessageText content (getMessageType content)))
      sessionId hnl hbuiltin
  simp only [parsedCommandName, parsedArgs] at hb hreg ⊢
  unfold dispatchCommand
  dsimp only []
  rw [if_pos hpfx, hb]
  simp only [List.headD_eq_head?_getD] at hreg ⊢
  simp [hreg, hgroup, hmeta]

def c8Conn : Conn :=
  { userId := "999:1@s.whatsapp.net", hasNewsletterSend := false,
    groupMetadataOf := fun _ => none }

def c8Msg : InboundMessage :=
  { key := { remoteJid := "120363321@g.us", fromMe := false,
             participant := some "4470@s.whatsapp.net" },
    content := some (textContent ".kick @user") }

def c8Registry : String → Option CommandData :=
  fun n => if n = "kick" then
      some { pattern := "kick", hasExecute := true, aliasList := none, payload := 3 }
    else none

/-- Claim C8 witness: `C8_metadata_failure_nonfatal` applied to a concrete
group message `.kick @user` whose metadata fetch fails. -/
theorem C8_metadata_failure_nonfatal_witness :
    handleMessage c8Conn demoSettings c8Registry c8Msg "555" =
      [Effect.execCommand "kick"
        { args := ["@user"], q := "@user", fromJid := "120363321@g.us", isGroup := true,
          groupMetadata := none, sender := "4470@s.whatsapp.net",
          isAdmins := false, isCreator := false }] :=
  C8_metadata_failure_nonfatal c8Conn demoSettings c8Registry c8Msg
    (textContent ".kick @user") "555"
    { pattern := "kick", hasExecute := true, aliasList := none, payload := 3 }
    (by decide) (by decide) (by decide) rfl (by decide) (by decide) (by decide) rfl

/-! ## Claim C6 — the prefix command's owner gate -/

/-- The claim's notion of a base identifier, stated from the spec's words
for comparison with the code's check: the JID with the server part (after
"@") and the device suffix (after ":") stripped. -/
def specBaseId (jid : String) : String := jsSplitHead (jsSplitHead jid '@') ':'

/-- The owner test the `prefix` built-in performs at line 1093,
de-Morganised: the sender JID equals `conn.user.id`, or contains
`conn.user.id.split(':')[0]` as a substring. -/
def codeOwnerCheck (ownerJid senderJid : String) : Bool :=
  senderJid == ownerJid || jsIncludes senderJid (jsSplitHead ownerJid ':')

theorem codeOwnerCheck_false_iff (o s : String) :
    codeOwnerCheck o s = false ↔ (s ≠ o ∧ ¬ jsIncludes s (jsSplitHead o ':') = true) := by
  simp [codeOwnerCheck]

/-- The `prefix` case of the regular-chat switch, in closed form. -/
theorem handleBuiltInCommands_prefix_case (conn : Conn) (settings : StoredUserSettings)
    (msg : InboundMessage) (args : List String) (sessionId : String)
    (hnl : jsEndsWith msg.key.remoteJid "@newsletter" = false) :
    handleBuiltInCommands conn settings msg "prefix" args sessionId =
      some (if codeOwnerCheck conn.userId (jsOr msg.key.participant msg.key.remoteJid) = false
        then [Effect.send msg.key.remoteJid SendKind.ownerOnly]
        else if args.length > 0 then
          [Effect.writeUserSettingsPfx sessionId (args.headD ""),
           Effect.send msg.key.remoteJid (SendKind.pfxUpdated (args.headD ""))]
        else
          [Effect.send msg.key.remoteJid
            (SendKind.currentPfx (jsOrS settings.pfx defaultPfx))]) := by
  by_cases hck : jsOr msg.key.participant msg.key.remoteJid ≠ conn.userId ∧
      ¬ jsIncludes (jsOr msg.key.participant msg.key.remoteJid)
          (jsSplitHead conn.userId ':') = true
  · have hcf : codeOwnerCheck conn.userId (jsOr msg.key.participant msg.key.remoteJid) = false :=
      (codeOwnerCheck_false_iff _ _).mpr hck
    simp [handleBuiltInCommands, hnl, hck, hcf]
  · have hcf : ¬ codeOwnerCheck conn.userId (jsOr msg.key.participant msg.key.remoteJid)
        = false := fun h => hck ((codeOwnerCheck_false_iff _ _).mp h)
    have hck2 : ¬ (¬ jsOr msg.key.participant msg.key.remoteJid = conn.userId ∧
        jsIncludes (jsOr msg.key.participant msg.key.remoteJid)
          (jsSplitHead conn.userId ':') = false) := by
      intro h2
      exact hck ⟨h2.1, by simp [h2.2]⟩
    simp [handleBuiltInCommands, hnl, hck2, hcf]
    split <;> rfl

/-- Claim C6 (amended): the `prefix` built-in treats a sender as the bot
owner iff the sender JID equals `conn.user.id` exactly or contains
`conn.user.id.split(':')[0]` as a substring (`codeOwnerCheck`) — substring
containment, not base-identifier equality; every sender failing this check
receives only the owner-only refusal, and no settings write occurs. -/
theorem C6_owner_gate (conn : Conn) (settings : StoredUserSettings)
    (msg : InboundMessage) (args : List String) (sessionId : String)
    (hnl : jsEndsWith msg.key.remoteJid "@newsletter" = false) :
    (handleBuiltInCommands conn settings msg "prefix" args sessionId =
        some [Effect.send msg.key.remoteJid SendKind.ownerOnly] ↔
      codeOwnerCheck conn.userId (jsOr msg.key.participant msg.key.remoteJid) = false) ∧
    (codeOwnerCheck conn.userId (jsOr msg.key.participant msg.key.remoteJid) = false →
      ∀ effects,
        handleBuiltInCommands conn settings msg "prefix" args sessionId = some effects →
        ∀ (n p : String), Effect.writeUserSettingsPfx n p ∉ effects) := by
  rw [handleBuiltInCommands_prefix_case conn settings msg args sessionId hnl]
  constructor
  · constructor
    · intro h
      by_cases hck : codeOwnerCheck conn.userId
          (jsOr msg.key.participant msg.key.remoteJid) = false
      · exact hck
      · rw [if_neg hck] at h
        split at h <;> simp at h
    · intro hck
      rw [if_pos hck]
  · intro hck effects heq n p
    rw [if_pos hck] at heq
    have : effects = [Effect.send msg.key.remoteJid SendKind.ownerOnly] :=
      (Option.some_inj.mp heq).symm
    subst this
    simp

def c6Conn : Conn :=
  { userId := "123:4@s.whatsapp.net", hasNewsletterSend := false,
    groupMetadataOf := fun _ => none }

def c6Msg : InboundMessage :=
  { key := { remoteJid := "111222333-444@g.us", fromMe := false,
             participant := some "5123@s.whatsapp.net" },
    content := some (textContent ".prefix !") }

/-- Counterexample to claim C6 as stated: sender `5123@s.whatsapp.net` has
base identifier "5123", not the account's base "123", so per the claim it
must receive only the owner-only refusal with no settings write; but the
code's `includes(ownerJid.split(':')[0])` substring test accepts it as
owner and the settings write happens. -/
theorem C6_counterexample :
    specBaseId "5123@s.whatsapp.net" ≠ specBaseId "123:4@s.whatsapp.net" ∧
    handleBuiltInCommands c6Conn demoSettings c6Msg "prefix" ["!"] "15551234567" =
      some [Effect.writeUserSettingsPfx "15551234567" "!",
            Effect.send "111222333-444@g.us" (SendKind.pfxUpdated "!")] := by
  decide

def c6wConn : Conn :=
  { userId := "123:4@s.whatsapp.net", hasNewsletterSend := false,
    groupMetadataOf := fun _ => none }

def c6wMsg : InboundMessage :=
  { key := { remoteJid := "447700900111@s.whatsapp.net", fromMe := false,
             participant := none },
    content := some (textContent ".prefix") }

/-- Claim C6 witness: `C6_owner_gate` applied to a concrete non-owner
sender, who receives exactly the owner-only refusal. -/
theorem C6_owner_gate_witness :
    handleBuiltInCommands c6wConn demoSettings c6wMsg "prefix" [] "77" =
      some [Effect.send "447700900111@s.whatsapp.net" SendKind.ownerOnly] :=
  ((C6_owner_gate c6wConn demoSettings c6wMsg [] "77" (by decide)).1).mpr (by decide)

/-! ## Claim C9 — promote permission gate -/

/-- Claim C9: a group invocation of `promote` by a sender who is neither a
group admin/superadmin per the fetched metadata nor the bot owner (the base
identifiers `conn.user.id.split(":")[0]` and `sender.split("@")[0]`
differing) short-circuits with the permission-denial reply and never calls
`groupParticipantsUpdate`. -/
theorem C9_promote_denied (conn : Conn) (m : MExtra) (fromJid sender : String)
    (md : GroupMetadata)
    (hmeta : conn.groupMetadataOf fromJid = some md)
    (hadmin : ∀ p ∈ md.participants, p.id = sender →
        p.admin ≠ some "admin" ∧ p.admin ≠ some "superadmin")
    (howner : jsSplitHead conn.userId ':' ≠ jsSplitHead sender '@') :
    promoteExecute conn m fromJid true sender =
      [Effect.send fromJid SendKind.adminsOnly] ∧
    ∀ (jid : String) (targets : List String) (action : String),
      Effect.groupParticipantsUpdate jid targets action ∉
        promoteExecute conn m fromJid true sender := by
  have hmain : promoteExecute conn m fromJid true sender =
      [Effect.send fromJid SendKind.adminsOnly] := by
    rcases hf : md.participants.find? (fun p => p.id == sender) with _ | p
    · simp [promoteExecute, hmeta, hf, beq_eq_false_iff_ne.mpr howner]
    · have hpmem := List.mem_of_find?_eq_some hf
      have hpid : p.id = sender := by simpa using List.find?_some hf
      have hadm := hadmin p hpmem hpid
      simp [promoteExecute, hmeta, hf, hadm.1, hadm.2, beq_eq_false_iff_ne.mpr howner]
  refine ⟨hmain, ?_⟩
  intro jid targets action
  rw [hmain]
  simp

def c9Md : GroupMetadata :=
  { participants := [ { id := "4470@s.whatsapp.net", admin := some "superadmin" },
                      { id := "5550001@s.whatsapp.net", admin := none } ] }

def c9Conn : Conn :=
  { userId := "999:1@s.whatsapp.net", hasNewsletterSend := false,
    groupMetadataOf := fun j => if j = "120363777@g.us" then some c9Md else none }

/-- Claim C9 witness: `C9_promote_denied` applied to a concrete group whose
metadata lists the sender without an admin rank, the sender's base "5550001"
differing from the account's base "999". -/
theorem C9_promote_denied_witness :
    promoteExecute c9Conn
        { mentionedJid := ["4470@s.whatsapp.net"], quotedSender := none }
        "120363777@g.us" true "5550001@s.whatsapp.net" =
      [Effect.send "120363777@g.us" SendKind.adminsOnly] :=
  (C9_promote_denied c9Conn
    { mentionedJid := ["4470@s.whatsapp.net"], quotedSender := none }
    "120363777@g.us" "5550001@s.whatsapp.net" c9Md
    (by decide) (by decide) (by decide)).1

/-! ## Claim C2 — logout cleanup -/

/-- Claim C2: after the logout-classified terminal close completes its
cleanup, the Session, PairingCode and UserSettings documents for the number
are all absent from the store — for every handler state and prior store
contents (`deleteSessionFromMongo` removes Session and UserSettings,
`deletePairingCodeFromMongo` the PairingCode). -/
theorem C2_logout_cleanup (sessionId : String) (s : HandlerState) (store : MongoStore) :
    (handleCloseStore sessionId s (some DisconnectReasonLoggedOut) store).sessions sessionId
        = none ∧
    (handleCloseStore sessionId s (some DisconnectReasonLoggedOut) store).pairingCodes sessionId
        = none ∧
    (handleCloseStore sessionId s (some DisconnectReasonLoggedOut) store).userSettingsTable
        sessionId = none := by
  simp [handleCloseStore, connectionClose, deleteSessionFromMongo, deletePairingCodeFromMongo]

/-! ## Claim C1 — non-logout terminal disconnect (code-bug evidence) -/

def c1BeforeRecord : SessionRecord :=
  { sessionId := some "15551234567", creds := some 5, authStateB := some 6,
    settingsBlob := 1, isActive := true }

def c1Store : MongoStore :=
  { sessions := fun n => if n = "15551234567" then some c1BeforeRecord else none,
    pairingCodes := fun n => if n = "15551234567" then some "ABCD1234" else none,
    userSettingsTable := fun _ => none }

def c1AfterRecord : SessionRecord :=
  { sessionId := some "15551234567", creds := none, authStateB := none,
    settingsBlob := 0, isActive := true }

/-- Claim C1 evidence: on a non-logout terminal close (status 428 with the
reconnect cap exhausted) the Session record does remain in the store, but —
against the claim and against the source's own comment "Update session in
MongoDB to mark as inactive" — it ends with `isActive = true` (hard-coded in
`saveSessionToMongo`'s `$set`) and its credentials overwritten with `null`
(the close branch passes `creds: null`), no longer the stored `some 5`. -/
theorem C1_nonlogout_close_evidence :
    (handleCloseStore "15551234567"
        { hasShownConnectedMessage := true, isLoggedOut := false, reconnectAttempts := 3 }
        (some 428) c1Store).sessions "15551234567" = some c1AfterRecord ∧
    c1AfterRecord.isActive = true ∧ c1AfterRecord.creds = none ∧
    c1BeforeRecord.creds = some 5 ∧ c1BeforeRecord.isActive = true := by
  decide

/-! ## Claim C3 — reconnect cap and backoff -/

theorem handlerStep_attempts_le (s : HandlerState) (e : ConnEvent)
    (h : s.reconnectAttempts ≤ MAX_RECONNECT_ATTEMPTS) :
    (handlerStep s e).1.reconnectAttempts ≤ MAX_RECONNECT_ATTEMPTS := by
  cases e with
  | qrReceived => exact h
  | connOpen => simp [handlerStep, MAX_RECONNECT_ATTEMPTS]
  | connConnecting => exact h
  | connClose code =>
    show ((connectionClose s code).1).reconnectAttempts ≤ MAX_RECONNECT_ATTEMPTS
    unfold connectionClose
    dsimp only
    by_cases hc : (code != some DisconnectReasonLoggedOut) = true ∧
        s.reconnectAttempts < MAX_RECONNECT_ATTEMPTS
    · rw [if_pos hc]
      exact hc.2
    · rw [if_neg hc]
      exact h

theorem runHandler_attempts_le (events : List ConnEvent) :
    (runHandler initialHandlerState events).reconnectAttempts ≤ MAX_RECONNECT_ATTEMPTS := by
  have main : ∀ (evs : List ConnEvent) (s : HandlerState),
      s.reconnectAttempts ≤ MAX_RECONNECT_ATTEMPTS →
      (runHandler s evs).reconnectAttempts ≤ MAX_RECONNECT_ATTEMPTS := by
    intro evs
    induction evs with
    | nil => intro s h; exact h
    | cons e t ih =>
      intro s h
      exact ih ((handlerStep s e).1) (handlerStep_attempts_le s e h)
  exact main events initialHandlerState (by decide)

/-- Claim C3 (amended): within one connection handler — the closure one
`setupConnectionHandlers` call creates — the reconnect-attempt counter never
exceeds 3, a scheduled attempt number `k` satisfies `1 ≤ k ≤ 3` with its
delay exactly `5000 * k` ms, and once the counter has reached 3 any further
close is terminal.  The session-level cap of the original claim fails
because an executed reconnect rebuilds the handler with a fresh counter
(see `C3_counterexample`). -/
theorem C3_reconnect_cap_per_handler :
    (∀ (events : List ConnEvent),
        (runHandler initialHandlerState events).reconnectAttempts ≤ MAX_RECONNECT_ATTEMPTS) ∧
    (∀ (s : HandlerState) (code : Option Nat) (k d : Nat),
        (connectionClose s code).2 = CloseAction.scheduleReconnect k d →
        d = 5000 * k ∧ 1 ≤ k ∧ k ≤ MAX_RECONNECT_ATTEMPTS) ∧
    (∀ (s : HandlerState) (code : Option Nat),
        MAX_RECONNECT_ATTEMPTS ≤ s.reconnectAttempts →
        (connectionClose s code).2 =
          CloseAction.terminal (code == some DisconnectReasonLoggedOut)) := by
  refine ⟨runHandler_attempts_le, ?_, ?_⟩
  · intro s code k d h
    unfold connectionClose at h
    dsimp only at h
    by_cases hc : (code != some DisconnectReasonLoggedOut) = true ∧
        s.reconnectAttempts < MAX_RECONNECT_ATTEMPTS
    · rw [if_pos hc] at h
      dsimp only at h
      injection h with h1 h2
      constructor
      · rw [← h1, ← h2]
        exact Nat.mul_comm _ _
      · constructor
        · omega
        · rw [← h1]
          exact hc.2
    · rw [if_neg hc] at h
      exact absurd h (by simp)
  · intro s code hge
    show (connectionClose s code).2 = CloseAction.terminal (code == some DisconnectReasonLoggedOut)
    unfold connectionClose
    dsimp only
    have hnc : ¬ ((code != some DisconnectReasonLoggedOut) = true ∧
        s.reconnectAttempts < MAX_RECONNECT_ATTEMPTS) := by
      rintro ⟨-, hlt⟩
      omega
    rw [if_neg hnc]

def c3InitSession : SessionMachine :=
  { handler := initialHandlerState, inActiveConnections := true, storedCreds := true }

def c3Trace : List SessionEvent :=
  [.transport (.connClose (some 428)), .reconnectTimerFires,
   .transport (.connClose (some 428)), .reconnectTimerFires,
   .transport (.connClose (some 428)), .reconnectTimerFires,
   .transport (.connClose (some 428))]

/-- Counterexample to claim C3 as stated: at the session level, four
consecutive non-logout closes of an active session with stored credentials
— each followed by its scheduled reconnect firing and rebuilding the
handler — produce four consecutive reconnect attempts with no terminal
transition, and every one of them is scheduled as attempt 1 with delay
5000 ms (the claim requires at most 3 attempts and a `5000 * k` delay for
the k-th), because each executed reconnect re-runs
`setupConnectionHandlers`, whose closure restarts `reconnectAttempts` at 0. -/
theorem C3_counterexample :
    (runSession c3InitSession c3Trace).2 =
      [CloseAction.scheduleReconnect 1 5000, CloseAction.scheduleReconnect 1 5000,
       CloseAction.scheduleReconnect 1 5000, CloseAction.scheduleReconnect 1 5000] := by
  decide

/-! ## Claim C10 — the active-socket counter never goes negative -/

theorem activeSocketsStep_nonneg (n : Int) (e : CounterEvent) (h : 0 ≤ n) :
    0 ≤ activeSocketsStep n e := by
  cases e with
  | connectionOpen => show 0 ≤ n + 1; omega
  | terminalClose => exact le_max_left 0 (n - 1)
  | sessionReloaded => show 0 ≤ n + 1; omega
  | otherTransition => exact h

/-- Claim C10: the `activeSockets` counter, starting at 0, never becomes
negative under any sequence of its transitions; the only decrementing
transition (terminal close) clamps at zero via `Math.max(0, n - 1)`, and
every other transition increments the counter or leaves it unchanged. -/
theorem C10_activeSockets_nonneg :
    (∀ (events : List CounterEvent), 0 ≤ events.foldl activeSocketsStep 0) ∧
    (∀ (n : Int) (e : CounterEvent),
        activeSocketsStep n e = max 0 (n - 1) ∨ activeSocketsStep n e = n + 1 ∨
        activeSocketsStep n e = n) := by
  constructor
  · have main : ∀ (evs : List CounterEvent) (n : Int), 0 ≤ n →
        0 ≤ evs.foldl activeSocketsStep n := by
      intro evs
      induction evs with
      | nil => intro n h; exact h
      | cons e t ih =>
        intro n h
        exact ih _ (activeSocketsStep_nonneg n e h)
    intro events
    exact main events 0 le_rfl
  · intro n e
    cases e with
    | connectionOpen => exact Or.inr (Or.inl rfl)
    | terminalClose => exact Or.inl rfl
    | sessionReloaded => exact Or.inr (Or.inl rfl)
    | otherTransition => exact Or.inr (Or.inr rfl)

end TubeAI
